import Mathlib

/-!
Shallow embedding of the task-tracking backend (FastAPI + SQLModel service).

The task routes live in src/src/api/tasks.py, the auth routes in
src/src/api/auth.py, the token helpers in src/src/core/security.py and the
request/response shapes in src/src/schemas/task.py.  The database is modelled
as an explicit list of task rows (respectively user rows) threaded through the
handlers; the current instant (datetime.utcnow) is an explicit parameter.
-/

namespace Todo

/-- A task row.  The columns follow the Task model used throughout
src/src/api/tasks.py (id, title, description, completed, user_id, created_at,
updated_at, completed_at); instants are modelled as naturals. -/
structure Task where
  id : Nat
  title : String
  description : Option String
  completed : Bool
  user_id : String
  created_at : Nat
  updated_at : Nat
  completed_at : Option Nat
deriving Repr, DecidableEq

/-- TaskCreate from src/src/schemas/task.py: title, optional description, and
the completed flag inherited from TaskBase (default false) that a client may
supply in the request body. -/
structure TaskCreate where
  title : String
  description : Option String
  completed : Bool
deriving Repr, DecidableEq

/-- TaskUpdate from src/src/schemas/task.py: every field optional, with None
meaning the field is absent from the patch. -/
structure TaskUpdate where
  title : Option String
  description : Option String
  completed : Option Bool
deriving Repr, DecidableEq

/-- TaskResponse from src/src/schemas/task.py. -/
structure TaskResponse where
  id : Nat
  title : String
  description : Option String
  completed : Bool
  user_id : String
  created_at : Nat
  updated_at : Nat
  completed_at : Option Nat
deriving Repr, DecidableEq

/-- TaskListResponse from src/src/schemas/task.py. -/
structure TaskListResponse where
  tasks : List TaskResponse
  total : Nat
  pending : Nat
  completed : Nat
deriving Repr, DecidableEq

/-- The errors a handler raises via HTTPException: 404 with a detail message,
or 400 with a detail message. -/
inductive ApiError where
  | notFound (detail : String)
  | badRequest (detail : String)
deriving Repr, DecidableEq

/-- The 404 detail string shared by get, update, toggle and delete in
src/src/api/tasks.py. -/
def taskNotFoundDetail : String :=
  "Task not found or you don't have permission to access it"

/-- The field-by-field conversion of a Task row into a TaskResponse performed
at the end of every handler in src/src/api/tasks.py. -/
def taskResponseOf (t : Task) : TaskResponse :=
  { id := t.id, title := t.title, description := t.description,
    completed := t.completed, user_id := t.user_id, created_at := t.created_at,
    updated_at := t.updated_at, completed_at := t.completed_at }

/-- The ownership-scoped lookup select(Task).where(and_(Task.id == task_id,
Task.user_id == current_user.id)) followed by scalar_one_or_none, shared by
get_task, update_task, toggle_task_completion and delete_task. -/
def findTask (store : List Task) (taskId : Nat) (userId : String) : Option Task :=
  store.find? fun t => t.id == taskId && t.user_id == userId

/-- Writing the mutated row back: the committed store after an update, with
the row matched by the ownership-scoped predicate replaced. -/
def replaceTask (store : List Task) (taskId : Nat) (userId : String) (t : Task) :
    List Task :=
  store.map fun u => if u.id == taskId && u.user_id == userId then t else u

/-- GET /tasks/:id (get_task in src/src/api/tasks.py): ownership-scoped
lookup, 404 when absent, otherwise the response conversion of the row. -/
def get_task (store : List Task) (userId : String) (taskId : Nat) :
    Except ApiError TaskResponse :=
  match findTask store taskId userId with
  | none => .error (.notFound taskNotFoundDetail)
  | some t => .ok (taskResponseOf t)

/-- The field mutations of update_task in src/src/api/tasks.py, in source
order: title and description are overwritten only when present in the patch;
when completed is present it is assigned first, and only then does the code
test task_data.completed together with the (already overwritten) negation of
task.completed before stamping completed_at; setting completed to false clears
completed_at; finally updated_at is set to the current instant. -/
def applyUpdateFields (task : Task) (patch : TaskUpdate) (now : Nat) : Task :=
  let task1 := match patch.title with
    | some v => { task with title := v }
    | none => task
  let task2 := match patch.description with
    | some v => { task1 with description := some v }
    | none => task1
  let task3 := match patch.completed with
    | some c =>
      let t := { task2 with completed := c }
      if c && !t.completed then { t with completed_at := some now }
      else if !c then { t with completed_at := none }
      else t
    | none => task2
  { task3 with updated_at := now }

/-- PUT /tasks/:id (update_task in src/src/api/tasks.py). -/
def update_task (store : List Task) (userId : String) (taskId : Nat)
    (patch : TaskUpdate) (now : Nat) :
    Except ApiError (List Task × TaskResponse) :=
  match findTask store taskId userId with
  | none => .error (.notFound taskNotFoundDetail)
  | some task =>
    let t := applyUpdateFields task patch now
    .ok (replaceTask store taskId userId t, taskResponseOf t)

/-- The field mutations of toggle_task_completion in src/src/api/tasks.py:
only the completed field of the patch is read; when present it is assigned and
completed_at is stamped with the current instant when the new value is true,
cleared when it is false; updated_at is always set to the current instant. -/
def applyToggleFields (task : Task) (patch : TaskUpdate) (now : Nat) : Task :=
  let task1 := match patch.completed with
    | some c =>
      let t := { task with completed := c }
      if c then { t with completed_at := some now }
      else { t with completed_at := none }
    | none => task
  { task1 with updated_at := now }

/-- PATCH /tasks/:id/complete (toggle_task_completion in
src/src/api/tasks.py). -/
def toggle_task_completion (store : List Task) (userId : String) (taskId : Nat)
    (patch : TaskUpdate) (now : Nat) :
    Except ApiError (List Task × TaskResponse) :=
  match findTask store taskId userId with
  | none => .error (.notFound taskNotFoundDetail)
  | some task =>
    let t := applyToggleFields task patch now
    .ok (replaceTask store taskId userId t, taskResponseOf t)

/-- DELETE /tasks/:id (delete_task in src/src/api/tasks.py): ownership-scoped
lookup, 404 when absent, otherwise the row is removed and a success message
returned. -/
def delete_task (store : List Task) (userId : String) (taskId : Nat) :
    Except ApiError (List Task × String) :=
  match findTask store taskId userId with
  | none => .error (.notFound taskNotFoundDetail)
  | some _ =>
    .ok (store.filter (fun u => !(u.id == taskId && u.user_id == userId)),
      "Task deleted successfully")

/-- Modelled from the spec: src/src/models/task.py (the Task table model) is
not among the source files; per the spec the storage assigns a monotonic
numeric identity to a new row. -/
def nextId (store : List Task) : Nat :=
  store.foldl (fun m t => max m t.id) 0 + 1

/-- POST /tasks (create_task in src/src/api/tasks.py): the handler passes only
title and description from the request body, hardcodes completed to false and
takes user_id from the authenticated user.  Modelled from the spec: the Task
model's storage defaults (src/src/models/task.py is absent from the sources)
set created_at and updated_at to the current instant and completed_at to
null, and the storage assigns the numeric id. -/
def create_task (store : List Task) (userId : String) (data : TaskCreate)
    (now : Nat) : List Task × TaskResponse :=
  let task : Task :=
    { id := nextId store, title := data.title, description := data.description,
      completed := false, user_id := userId, created_at := now,
      updated_at := now, completed_at := none }
  (store ++ [task], taskResponseOf task)

/-- GET /tasks (list_tasks in src/src/api/tasks.py): the query is scoped to
the authenticated user, narrowed by the status filter (the strings pending and
completed; any other value, including the default all, adds no clause), and
total, pending and completed are counted over the rows the query returned. -/
def list_tasks (store : List Task) (userId : String) (status_filter : String) :
    TaskListResponse :=
  let query := store.filter fun t => t.user_id == userId
  let tasks :=
    if status_filter == "pending" then query.filter (fun t => !t.completed)
    else if status_filter == "completed" then query.filter (fun t => t.completed)
    else query
  { tasks := tasks.map taskResponseOf,
    total := tasks.length,
    pending := (tasks.filter (fun t => !t.completed)).length,
    completed := (tasks.filter (fun t => t.completed)).length }

/-- A user row, following the User model in src/src/models/user.py restricted
to the columns the auth routes read. -/
structure User where
  id : String
  email : String
  name : String
  password_hash : String
deriving Repr, DecidableEq

/-- POST /auth/signup (signup in src/src/api/auth.py): the handler looks the
email up first and raises 400 "Email already registered" when a user exists,
leaving the store untouched; otherwise it inserts a user whose password_hash
is the hash of the plaintext and whose id the storage generates (a UUID,
passed here as newId). -/
def signup (users : List User) (email name password : String)
    (hash_fn : String → String) (newId : String) :
    List User × Except ApiError User :=
  match users.find? (fun u => u.email == email) with
  | some _ => (users, .error (.badRequest "Email already registered"))
  | none =>
    let u : User :=
      { id := newId, email := email, name := name,
        password_hash := hash_fn password }
    (users ++ [u], .ok u)

/-- A decoded token payload: the embedded user identity and the absolute
expiration instant, the claims create_access_token writes in
src/src/core/security.py. -/
structure TokenPayload where
  user_id : String
  exp : Nat
deriving Repr, DecidableEq

/-- A token string, abstracted: either not parseable at all, or a payload
together with the signature string attached to it. -/
inductive TokenString where
  | malformed (raw : String) : TokenString
  | signed (payload : TokenPayload) (sig : String) : TokenString
deriving Repr, DecidableEq

/-- The reasons the jwt library's decode raises PyJWTError. -/
inductive JwtError where
  | invalidSignature
  | expired
  | malformedToken
deriving Repr, DecidableEq

/-- The correct signature of a payload under a secret, abstracted as a
concrete injective tagging function. -/
def mkSignature (secret : String) (p : TokenPayload) : String :=
  secret ++ "." ++ p.user_id ++ "." ++ toString p.exp

/-- Modelled from the spec: jwt.decode is the external jwt library, specified
at the boundary; it raises PyJWTError when the token is malformed, when the
signature does not match the secret, or when the expiration instant is not in
the future, and otherwise returns the payload. -/
def jwtDecode (secret : String) (now : Nat) (t : TokenString) :
    Except JwtError TokenPayload :=
  match t with
  | .malformed _ => .error .malformedToken
  | .signed p sig =>
    if sig = mkSignature secret p then
      if p.exp ≤ now then .error .expired else .ok p
    else .error .invalidSignature

/-- verify_token in src/src/core/security.py: calls jwt.decode and returns its
payload, catching every PyJWTError and returning None instead. -/
def verify_token (secret : String) (now : Nat) (t : TokenString) :
    Option TokenPayload :=
  match jwtDecode secret now t with
  | .ok payload => some payload
  | .error _ => none

/-- The completed/completed_at coupling invariant of the spec, as a boolean
check on a task row. -/
def completedCoupled (t : Task) : Bool :=
  t.completed == t.completed_at.isSome

/-- The task of a successful task-returning handler result, none on error. -/
def okTask (r : Except ApiError (List Task × TaskResponse)) :
    Option TaskResponse :=
  match r with
  | .ok (_, t) => some t
  | .error _ => none

/-- A pending task owned by user B, used as a concrete row in witnesses and
counterexamples. -/
def pendingTask : Task :=
  { id := 1, title := "Buy Groceries", description := some "Milk, Bread, Eggs",
    completed := false, user_id := "B", created_at := 0, updated_at := 0,
    completed_at := none }

/-- A patch that only sets completed to true. -/
def patchComplete : TaskUpdate :=
  { title := none, description := none, completed := some true }

/-- A patch that only sets completed to false. -/
def patchUncomplete : TaskUpdate :=
  { title := none, description := none, completed := some false }

/-- An already-completed task owned by user A. -/
def doneTask : Task :=
  { id := 2, title := "Ship release", description := none,
    completed := true, user_id := "A", created_at := 0, updated_at := 1,
    completed_at := some 1 }

/-- A pending task owned by user A. -/
def openTask : Task :=
  { id := 3, title := "Write docs", description := none,
    completed := false, user_id := "A", created_at := 0, updated_at := 0,
    completed_at := none }

/-- A two-task store for user A: one pending, one completed. -/
def demoStore : List Task := [openTask, doneTask]

end Todo
namespace Todo

/-- A patch with every field absent. -/
def emptyPatch : TaskUpdate :=
  { title := none, description := none, completed := none }

/-- A concrete user row for the signup scenario. -/
def demoUser : User :=
  { id := "u1", email := "ann@example.com", name := "Ann",
    password_hash := "h1" }

/-- Length of a list is the length of the kept part plus the length of the
dropped part of a boolean filter. -/
theorem length_filter_partition {α : Type} (p : α → Bool) (l : List α) :
    l.length = (l.filter fun a => !(p a)).length + (l.filter p).length := by
  induction l with
  | nil => rfl
  | cons a l ih => cases h : p a <;> simp [List.filter_cons, h] <;> omega

/-- Closed form of the field mutations of update_task: title and description
follow the patch when present; completed follows the patch; completed_at is
never stamped when completed is set to true (the branch guarded by the
already-overwritten flag is dead) and is cleared when completed is set to
false; updated_at becomes the current instant. -/
theorem applyUpdateFields_spec (task : Task) (patch : TaskUpdate) (now : Nat) :
    applyUpdateFields task patch now =
      { task with
        title := patch.title.getD task.title,
        description := (match patch.description with
          | some v => some v
          | none => task.description),
        completed := patch.completed.getD task.completed,
        completed_at := (match patch.completed with
          | some c => if c then task.completed_at else none
          | none => task.completed_at),
        updated_at := now } := by
  obtain ⟨pt, pd, pc⟩ := patch
  cases pt <;> cases pd <;> cases pc <;> try rfl
  all_goals (rename_i c; cases c <;> rfl)

/-- Mapping rows to responses commutes with filtering by matching
predicates. -/
theorem filter_map_response (pT : Task → Bool) (pR : TaskResponse → Bool)
    (hp : ∀ t, pR (taskResponseOf t) = pT t) (l : List Task) :
    (l.map taskResponseOf).filter pR = (l.filter pT).map taskResponseOf := by
  induction l with
  | nil => rfl
  | cons a l ih => cases h : pT a <;> simp [List.filter_cons, hp, h, ih]

/-- The ownership-scoped lookup under identity A misses every row whose id is
i when the unique row with id i belongs to a different owner B. -/
theorem findTask_eq_none_of_other_owner (store : List Task) (A B : String)
    (i : Nat) (t : Task) (hAB : A ≠ B) (hown : t.user_id = B)
    (hkey : ∀ u ∈ store, u.id = i → u = t) :
    findTask store i A = none := by
  unfold findTask
  rw [List.find?_eq_none]
  intro u hu
  simp only [Bool.and_eq_true, beq_iff_eq]
  intro hcon
  apply hAB
  calc A = u.user_id := hcon.2.symm
    _ = t.user_id := by rw [hkey u hu hcon.1]
    _ = B := hown

/-- The ownership-scoped lookup misses an id no row of the store carries. -/
theorem findTask_eq_none_of_fresh (store : List Task) (A : String) (j : Nat)
    (hj : ∀ u ∈ store, u.id ≠ j) :
    findTask store j A = none := by
  unfold findTask
  rw [List.find?_eq_none]
  intro u hu
  simp only [Bool.and_eq_true, beq_iff_eq]
  intro hcon
  exact hj u hu hcon.1

/-- C1: for distinct owners A and B and a task of B whose id is i (the only
row with that id), get, update, toggleCompletion and delete invoked as A on
id i all answer 404 with the shared detail message, the same outcome each of
them gives A on an id j no task carries at all, so B's row is never returned,
mutated or deleted across owners. -/
theorem cross_owner_isolated
    (store : List Task) (A B : String) (i j : Nat) (patch : TaskUpdate)
    (now : Nat) (t : Task) (hAB : A ≠ B) (ht : t ∈ store) (hid : t.id = i)
    (hown : t.user_id = B) (hkey : ∀ u ∈ store, u.id = i → u = t)
    (hj : ∀ u ∈ store, u.id ≠ j) :
    get_task store A i = .error (.notFound taskNotFoundDetail) ∧
    get_task store A i = get_task store A j ∧
    update_task store A i patch now = .error (.notFound taskNotFoundDetail) ∧
    update_task store A i patch now = update_task store A j patch now ∧
    toggle_task_completion store A i patch now =
      .error (.notFound taskNotFoundDetail) ∧
    toggle_task_completion store A i patch now =
      toggle_task_completion store A j patch now ∧
    delete_task store A i = .error (.notFound taskNotFoundDetail) ∧
    delete_task store A i = delete_task store A j := by
  have hfi : findTask store i A = none :=
    findTask_eq_none_of_other_owner store A B i t hAB hown hkey
  have hfj : findTask store j A = none :=
    findTask_eq_none_of_fresh store A j hj
  refine ⟨?_, ?_, ?_, ?_, ?_, ?_, ?_, ?_⟩ <;>
    simp [get_task, update_task, toggle_task_completion, delete_task, hfi, hfj]

/-- Witness for C1: user A probing the store holding only B's pending task
with id 1 gets the uniform 404 from all four operations, identically to
probing the unused id 2. -/
theorem cross_owner_isolated_witness :
    get_task [pendingTask] "A" 1 = .error (.notFound taskNotFoundDetail) ∧
    get_task [pendingTask] "A" 1 = get_task [pendingTask] "A" 2 ∧
    update_task [pendingTask] "A" 1 patchComplete 5 =
      .error (.notFound taskNotFoundDetail) ∧
    update_task [pendingTask] "A" 1 patchComplete 5 =
      update_task [pendingTask] "A" 2 patchComplete 5 ∧
    toggle_task_completion [pendingTask] "A" 1 patchComplete 5 =
      .error (.notFound taskNotFoundDetail) ∧
    toggle_task_completion [pendingTask] "A" 1 patchComplete 5 =
      toggle_task_completion [pendingTask] "A" 2 patchComplete 5 ∧
    delete_task [pendingTask] "A" 1 = .error (.notFound taskNotFoundDetail) ∧
    delete_task [pendingTask] "A" 1 = delete_task [pendingTask] "A" 2 :=
  cross_owner_isolated [pendingTask] "A" "B" 1 2 patchComplete 5 pendingTask
    (by decide) (by decide) rfl rfl (by decide) (by decide)

/-- C2 (bug evidence): the coupling of completed and completed_at holds on
the stored pending task, yet after the update route marks it completed the
committed row has completed true with completed_at still null, so the
invariant is broken by a successful update call. -/
theorem update_breaks_completed_coupling :
    completedCoupled pendingTask = true ∧
    update_task [pendingTask] "B" 1 patchComplete 5 =
      Except.ok ([{ pendingTask with completed := true, updated_at := 5 }],
        taskResponseOf { pendingTask with completed := true, updated_at := 5 }) ∧
    completedCoupled { pendingTask with completed := true, updated_at := 5 } =
      false :=
  ⟨rfl, rfl, rfl⟩

/-- C3 (bug evidence): updating the pending task with completed set to true
at instant 5 leaves completed_at null instead of stamping 5, while updating
the completed task with completed set to false does clear completed_at. -/
theorem update_does_not_stamp_completed_at :
    (okTask (update_task [pendingTask] "B" 1 patchComplete 5)).map
      (fun r => r.completed_at) = some none ∧
    some (none : Option Nat) ≠ some (some 5) ∧
    (okTask (update_task [doneTask] "A" 2 patchUncomplete 7)).map
      (fun r => r.completed_at) = some none :=
  ⟨rfl, by decide, rfl⟩

/-- C4 (bug evidence): on the same stored pending task and the same patch
setting completed to true at instant 5, the update route returns completed_at
null while the toggle route returns completed_at 5, so the two routes do not
produce the same resulting task state. -/
theorem update_and_toggle_disagree :
    (okTask (update_task [pendingTask] "B" 1 patchComplete 5)).map
      (fun r => r.completed_at) = some none ∧
    (okTask (toggle_task_completion [pendingTask] "B" 1 patchComplete 5)).map
      (fun r => r.completed_at) = some (some 5) ∧
    okTask (update_task [pendingTask] "B" 1 patchComplete 5) ≠
      okTask (toggle_task_completion [pendingTask] "B" 1 patchComplete 5) :=
  ⟨rfl, rfl, by decide⟩

/-- C5 counterexample: owner A holds one pending and one completed task, yet
the completed-filtered list reports total 1 and pending 0, not the
owner-scoped totals 2 and 1, so the counts are not independent of which
subset of tasks is returned. -/
theorem list_counts_not_owner_totals :
    (list_tasks demoStore "A" "completed").total = 1 ∧
    (demoStore.filter (fun t => t.user_id == "A")).length = 2 ∧
    (list_tasks demoStore "A" "completed").total ≠
      (demoStore.filter (fun t => t.user_id == "A")).length ∧
    (list_tasks demoStore "A" "completed").pending = 0 ∧
    (demoStore.filter (fun t => t.user_id == "A" && !t.completed)).length = 1 :=
  ⟨rfl, rfl, by decide, rfl, rfl⟩

/-- C5 (amended): the list operation filters by owner first and then by
completion state, and total, pending and completed are computed over the
returned, owner- and status-filtered subset: total is the number of returned
tasks and pending and completed partition the returned tasks by the completed
flag; every returned task belongs to the caller, and under the pending
(respectively completed) filter every returned task is pending (respectively
completed). -/
theorem list_counts_over_returned_subset (store : List Task) (owner sf : String) :
    (list_tasks store owner sf).total = (list_tasks store owner sf).tasks.length ∧
    (list_tasks store owner sf).pending =
      ((list_tasks store owner sf).tasks.filter (fun r => !r.completed)).length ∧
    (list_tasks store owner sf).completed =
      ((list_tasks store owner sf).tasks.filter (fun r => r.completed)).length ∧
    (∀ r ∈ (list_tasks store owner sf).tasks, r.user_id = owner) ∧
    (sf = "pending" →
      ∀ r ∈ (list_tasks store owner sf).tasks, r.completed = false) ∧
    (sf = "completed" →
      ∀ r ∈ (list_tasks store owner sf).tasks, r.completed = true) := by
  unfold list_tasks
  dsimp only
  set l := (if (sf == "pending") = true then
      (store.filter fun t => t.user_id == owner).filter (fun t => !t.completed)
    else if (sf == "completed") = true then
      (store.filter fun t => t.user_id == owner).filter (fun t => t.completed)
    else store.filter fun t => t.user_id == owner) with hl
  have hsub : ∀ t ∈ l, t ∈ store.filter fun t => t.user_id == owner := by
    intro t htl
    rw [hl] at htl
    split at htl
    · exact List.mem_of_mem_filter htl
    · split at htl
      · exact List.mem_of_mem_filter htl
      · exact htl
  refine ⟨?_, ?_, ?_, ?_, ?_, ?_⟩
  · rw [List.length_map]
  · rw [filter_map_response (fun t => !t.completed) _ (fun t => rfl),
      List.length_map]
  · rw [filter_map_response (fun t => t.completed) _ (fun t => rfl),
      List.length_map]
  · intro r hr
    obtain ⟨t, htl, hrt⟩ := List.mem_map.mp hr
    have := List.mem_filter.mp (hsub t htl)
    rw [← hrt]
    simpa [taskResponseOf] using this.2
  · intro hsf r hr
    obtain ⟨t, htl, hrt⟩ := List.mem_map.mp hr
    rw [hl, hsf] at htl
    simp [List.mem_filter] at htl
    rw [← hrt]
    simpa [taskResponseOf] using htl.2.1
  · intro hsf r hr
    obtain ⟨t, htl, hrt⟩ := List.mem_map.mp hr
    rw [hl, hsf] at htl
    simp [List.mem_filter] at htl
    rw [← hrt]
    simpa [taskResponseOf] using htl.2.1

/-- Witness for C5 (amended): on the concrete two-task store the pending
count of the completed-filtered response is the count over the returned
subset. -/
theorem list_counts_over_returned_subset_witness :
    (list_tasks demoStore "A" "completed").pending =
      ((list_tasks demoStore "A" "completed").tasks.filter
        (fun r => !r.completed)).length :=
  (list_counts_over_returned_subset demoStore "A" "completed").2.1

/-- C6: the task returned by create has completed false and completed_at
null whatever completed value the client supplied, its owner is the
authenticated caller, and both timestamps are the current instant. -/
theorem create_task_forces_defaults (store : List Task) (userId : String)
    (data : TaskCreate) (now : Nat) :
    (create_task store userId data now).2.completed = false ∧
    (create_task store userId data now).2.completed_at = none ∧
    (create_task store userId data now).2.user_id = userId ∧
    (create_task store userId data now).2.created_at = now ∧
    (create_task store userId data now).2.updated_at = now :=
  ⟨rfl, rfl, rfl, rfl, rfl⟩

/-- C7: a successful update applies only the fields present in the patch:
title, description, and the completed/completed_at pair each keep their
prior value whenever the corresponding patch field is absent. -/
theorem update_preserves_absent_fields
    (store : List Task) (A : String) (i : Nat) (patch : TaskUpdate) (now : Nat)
    (t : Task) (h : findTask store i A = some t) :
    ∃ u : Task, update_task store A i patch now =
        Except.ok (replaceTask store i A u, taskResponseOf u) ∧
      (patch.title = none → u.title = t.title) ∧
      (patch.description = none → u.description = t.description) ∧
      (patch.completed = none →
        u.completed = t.completed ∧ u.completed_at = t.completed_at) := by
  refine ⟨applyUpdateFields t patch now, ?_, ?_, ?_, ?_⟩
  · unfold update_task
    rw [h]
  · intro hp
    rw [applyUpdateFields_spec]
    simp [hp]
  · intro hp
    rw [applyUpdateFields_spec]
    simp [hp]
  · intro hp
    rw [applyUpdateFields_spec]
    simp [hp]

/-- Witness for C7: updating B's pending task with the empty patch keeps
title, description and the completion pair unchanged. -/
theorem update_preserves_absent_fields_witness :
    ∃ u : Task, update_task [pendingTask] "B" 1 emptyPatch 9 =
        Except.ok (replaceTask [pendingTask] 1 "B" u, taskResponseOf u) ∧
      (emptyPatch.title = none → u.title = pendingTask.title) ∧
      (emptyPatch.description = none →
        u.description = pendingTask.description) ∧
      (emptyPatch.completed = none →
        u.completed = pendingTask.completed ∧
          u.completed_at = pendingTask.completed_at) :=
  update_preserves_absent_fields [pendingTask] "B" 1 emptyPatch 9 pendingTask
    rfl

/-- C8: signup with an email an existing user already carries answers 400
with the duplicate-email message and leaves the user store unchanged, so no
second record with that email is created. -/
theorem signup_rejects_duplicate_email
    (users : List User) (email name password : String)
    (hash_fn : String → String) (newId : String)
    (h : ∃ u ∈ users, u.email = email) :
    (signup users email name password hash_fn newId).1 = users ∧
    (signup users email name password hash_fn newId).2 =
      .error (.badRequest "Email already registered") := by
  obtain ⟨v, hv⟩ : ∃ v, users.find? (fun u => u.email == email) = some v := by
    rw [← Option.isSome_iff_exists, List.find?_isSome]
    obtain ⟨u, hu, he⟩ := h
    exact ⟨u, hu, by simpa using he⟩
  constructor <;> simp [signup, hv]

/-- Witness for C8: signing up with the stored user's email fails with the
duplicate-email error and the store still holds exactly that one user. -/
theorem signup_rejects_duplicate_email_witness :
    (signup [demoUser] "ann@example.com" "Bob" "pw" (fun s => s) "u2").1 =
      [demoUser] ∧
    (signup [demoUser] "ann@example.com" "Bob" "pw" (fun s => s) "u2").2 =
      .error (.badRequest "Email already registered") :=
  signup_rejects_duplicate_email [demoUser] "ann@example.com" "Bob" "pw"
    (fun s => s) "u2" ⟨demoUser, by decide, rfl⟩

/-- C9: token verification returns none, never an uncaught error, on a
malformed token, on a signature that does not match the secret, and on an
expiration instant not in the future; on a well-signed unexpired token it
returns exactly the embedded payload. -/
theorem verify_token_never_throws (secret : String) (now : Nat) :
    (∀ raw, verify_token secret now (.malformed raw) = none) ∧
    (∀ p sig, sig ≠ mkSignature secret p →
      verify_token secret now (.signed p sig) = none) ∧
    (∀ p sig, p.exp ≤ now → verify_token secret now (.signed p sig) = none) ∧
    (∀ p, now < p.exp →
      verify_token secret now (.signed p (mkSignature secret p)) = some p) := by
  refine ⟨fun raw => rfl, fun p sig hs => ?_, fun p sig he => ?_,
    fun p hf => ?_⟩
  · simp [verify_token, jwtDecode, hs]
  · by_cases hs : sig = mkSignature secret p
    · simp [verify_token, jwtDecode, hs, he]
    · simp [verify_token, jwtDecode, hs]
  · simp [verify_token, jwtDecode, Nat.not_le.mpr hf]

/-- Witness for C9: at instant 3 under secret k, a malformed token, a badly
signed token and an expired token all verify to none, and a well-signed
token expiring at 9 verifies to its payload. -/
theorem verify_token_never_throws_witness :
    verify_token "k" 3 (.malformed "x") = none ∧
    verify_token "k" 3 (.signed { user_id := "u", exp := 9 } "bad") = none ∧
    verify_token "k" 3
      (.signed { user_id := "u", exp := 2 }
        (mkSignature "k" { user_id := "u", exp := 2 })) = none ∧
    verify_token "k" 3
      (.signed { user_id := "u", exp := 9 }
        (mkSignature "k" { user_id := "u", exp := 9 })) =
      some { user_id := "u", exp := 9 } :=
  ⟨(verify_token_never_throws "k" 3).1 "x",
   (verify_token_never_throws "k" 3).2.1 _ _ (by decide),
   (verify_token_never_throws "k" 3).2.2.1 _ _ (by decide),
   (verify_token_never_throws "k" 3).2.2.2 _ (by decide)⟩

/-- C10: in every list response the total equals pending plus completed,
since the three counts partition the returned task set by the completed
flag. -/
theorem list_total_eq_pending_add_completed (store : List Task)
    (userId sf : String) :
    (list_tasks store userId sf).total =
      (list_tasks store userId sf).pending +
        (list_tasks store userId sf).completed := by
  unfold list_tasks
  dsimp only
  exact length_filter_partition (fun t : Task => t.completed) _

end Todo
